import Mathlib

/-!
Verification development for the aliyun traffic monitor (src/monitor.py).

The script is shallowly embedded: the persisted state file (a JSON dict
mapping instance id to a dict of event-key timestamps and a start-failure
counter) is modelled as an association list of association lists with
rational values (timestamps from time.time() and integer counters share the
inner dict in the source, so they share the value type here).  External
effects (the Aliyun API calls and time.time()) are supplied through an
environment record: each fallible gateway call is an Except value, and the
wall clock during one cycle is a rational.  check_and_act is translated as a
pure function from (user, environment, state) to a result record carrying
the updated state together with the observable effects of the cycle
(notifications requested, start/stop commands issued, polls performed,
branch taken, whether the cycle aborted on an error).
-/

namespace Monitor

/-- NOTIFY_COOLDOWN = 3600 (seconds): generic notification cooldown. -/
def NOTIFY_COOLDOWN : ℚ := 3600

/-- OVERLIMIT_COOLDOWN = 86400 (seconds): overlimit notification cooldown. -/
def OVERLIMIT_COOLDOWN : ℚ := 86400

/-- START_WAIT_TIMEOUT = 120 (seconds): start-confirmation polling timeout. -/
def START_WAIT_TIMEOUT : Nat := 120

/-- START_POLL_INTERVAL = 10 (seconds): start-confirmation poll interval. -/
def START_POLL_INTERVAL : Nat := 10

/-- MAX_START_FAILURES = 3: consecutive start failures before the
no-resource gate engages. -/
def MAX_START_FAILURES : ℚ := 3

/-- Inner per-instance dict: event key / counter name to numeric value. -/
abbrev InnerMap := List (String × ℚ)

/-- Outer state dict: instance id to its inner dict. -/
abbrev MonState := List (String × InnerMap)

/-- First-match lookup in an association list (Python dict lookup). -/
def lookupA {α : Type} : List (String × α) → String → Option α
  | [], _ => none
  | (k, v) :: rest, key => if k = key then some v else lookupA rest key

/-- Python d[k] = v: replace the first binding of k, or append one. -/
def setA {α : Type} : List (String × α) → String → α → List (String × α)
  | [], key, v => [(key, v)]
  | (k, w) :: rest, key, v =>
    if k = key then (key, v) :: rest else (k, w) :: setA rest key v

/-- Python d.pop(k, None): remove the binding of k. -/
def delA {α : Type} (m : List (String × α)) (key : String) : List (String × α) :=
  m.filter (fun p => p.1 ≠ key)

/-- Python d.get(k, default) on the inner dict. -/
def getD (m : InnerMap) (key : String) (d : ℚ) : ℚ :=
  (lookupA m key).getD d

/-- state.get(instance_id, \x7b\x7d). -/
def getEntry (st : MonState) (instance_id : String) : InnerMap :=
  (lookupA st instance_id).getD []

/-- state.setdefault(instance_id, \x7b\x7d)[key] = v : update the instance's
inner dict (creating it when absent) through f. -/
def updEntry (st : MonState) (instance_id : String) (f : InnerMap → InnerMap) :
    MonState :=
  setA st instance_id (f (getEntry st instance_id))

/-- can_notify(state, instance_id, event_key, cooldown=None): the cooldown
check; absent cooldown defaults to NOTIFY_COOLDOWN, absent timestamp
defaults to 0; true iff now - last_ts >= cooldown. -/
def can_notify (st : MonState) (instance_id event_key : String)
    (cooldown : Option ℚ) (now : ℚ) : Bool :=
  let c := cooldown.getD NOTIFY_COOLDOWN
  let last_ts := getD (getEntry st instance_id) event_key 0
  decide (c ≤ now - last_ts)

/-- mark_notified(state, instance_id, event_key): record time.time(). -/
def mark_notified (st : MonState) (instance_id event_key : String) (now : ℚ) :
    MonState :=
  updEntry st instance_id (fun m => setA m event_key now)

/-- get_start_failures(state, instance_id). -/
def get_start_failures (st : MonState) (instance_id : String) : ℚ :=
  getD (getEntry st instance_id) "start_failures" 0

/-- set_start_failures(state, instance_id, count). -/
def set_start_failures (st : MonState) (instance_id : String) (count : ℚ) :
    MonState :=
  updEntry st instance_id (fun m => setA m "start_failures" count)

/-- reset_start_failures(state, instance_id). -/
def reset_start_failures (st : MonState) (instance_id : String) : MonState :=
  updEntry st instance_id (fun m => setA m "start_failures" 0)

/-- One status poll answer: an exception, or DescribeInstances giving no
instance (None) or a status string. -/
abbrev StatusResult := Except Unit (Option String)

/-- Environment of one decision cycle: the outcome each external call would
have, and the wall clock.  time.time() calls within a single cycle are
modelled at the single instant now. -/
structure Env where
  traffic : Except Unit (List ℚ)
  status : StatusResult
  startRes : Except Unit Unit
  stopRes : Except Unit Unit
  poll : Nat → StatusResult
  now : ℚ

/-- Which top-level branch of the decision the cycle reached. -/
inductive Branch where
  | safe
  | overlimit
deriving DecidableEq, Repr

/-- Outcome of the start-confirmation polling loop, carrying the number of
status queries issued. -/
inductive PollOutcome where
  | started (polls : Nat)
  | timedOut (polls : Nat)
  | errored (polls : Nat)
deriving DecidableEq, Repr

/-- Number of status queries issued by the polling loop. -/
def PollOutcome.queries : PollOutcome → Nat
  | .started n => n
  | .timedOut n => n
  | .errored n => n

/-- The start-confirmation sub-loop: while waited < START_WAIT_TIMEOUT,
sleep START_POLL_INTERVAL, add it to waited, query the status; stop as
started on Running, abort on an exception, otherwise keep polling. -/
def pollLoop (poll : Nat → StatusResult) (waited polls : Nat) : PollOutcome :=
  if waited < START_WAIT_TIMEOUT then
    match poll polls with
    | .error _ => .errored (polls + 1)
    | .ok s =>
      if s = some "Running" then .started (polls + 1)
      else pollLoop poll (waited + START_POLL_INTERVAL) (polls + 1)
  else .timedOut polls
termination_by START_WAIT_TIMEOUT - waited
decreasing_by
  simp only [START_WAIT_TIMEOUT, START_POLL_INTERVAL] at *
  omega

/-- One monitored target from config.json: only the fields the decision
logic reads (credentials are opaque plumbing). -/
structure User where
  instance_id : String
  traffic_limit : Option ℚ
deriving DecidableEq, Repr

/-- Result of one check_and_act call: final state plus the cycle's
observable effects.  notifs lists, in order, the event keys for which
send_tg_alert was invoked; errored records that the cycle was aborted by the
except handler (or by the instance-not-found early return). -/
structure CycleResult where
  state : MonState
  notifs : List String
  startIssued : Bool
  stopIssued : Bool
  nPolls : Nat
  branch : Option Branch
  confirmedRunning : Bool
  errored : Bool
deriving DecidableEq, Repr

/-- The status == "Stopped" arm of the safe branch: no-resource gate, else
start command, polling loop, and the started / timed-out continuations. -/
def safeStopped (user : User) (env : Env) (st : MonState) : CycleResult :=
  let instance_id := user.instance_id
  let failures := get_start_failures st instance_id
  if MAX_START_FAILURES ≤ failures then
    if can_notify st instance_id "no_resource" none env.now then
      { state := mark_notified st instance_id "no_resource" env.now,
        notifs := ["no_resource"], startIssued := false, stopIssued := false,
        nPolls := 0, branch := some .safe, confirmedRunning := false,
        errored := false }
    else
      { state := st, notifs := [], startIssued := false, stopIssued := false,
        nPolls := 0, branch := some .safe, confirmedRunning := false,
        errored := false }
  else
    match env.startRes with
    | .error _ =>
      { state := st, notifs := [], startIssued := false, stopIssued := false,
        nPolls := 0, branch := some .safe, confirmedRunning := false,
        errored := true }
    | .ok _ =>
      match pollLoop env.poll 0 0 with
      | .errored n =>
        { state := st, notifs := [], startIssued := true, stopIssued := false,
          nPolls := n, branch := some .safe, confirmedRunning := false,
          errored := true }
      | .started n =>
        let st1 := reset_start_failures st instance_id
        let st2 := updEntry st1 instance_id (fun m => delA m "no_resource")
        if can_notify st2 instance_id "resumed" none env.now then
          { state := mark_notified st2 instance_id "resumed" env.now,
            notifs := ["resumed"], startIssued := true, stopIssued := false,
            nPolls := n, branch := some .safe, confirmedRunning := true,
            errored := false }
        else
          { state := st2, notifs := [], startIssued := true,
            stopIssued := false, nPolls := n, branch := some .safe,
            confirmedRunning := true, errored := false }
      | .timedOut n =>
        let st1 := set_start_failures st instance_id (failures + 1)
        if can_notify st1 instance_id "start_failed" none env.now then
          { state := mark_notified st1 instance_id "start_failed" env.now,
            notifs := ["start_failed"], startIssued := true,
            stopIssued := false, nPolls := n, branch := some .safe,
            confirmedRunning := false, errored := false }
        else
          { state := st1, notifs := [], startIssued := true,
            stopIssued := false, nPolls := n, branch := some .safe,
            confirmedRunning := false, errored := false }

/-- The safe (traffic below limit) branch of check_and_act. -/
def safeBranch (user : User) (env : Env) (st : MonState) (status : String) :
    CycleResult :=
  if status = "Stopped" then safeStopped user env st
  else if status = "Running" then
    { state := reset_start_failures st user.instance_id, notifs := [],
      startIssued := false, stopIssued := false, nPolls := 0,
      branch := some .safe, confirmedRunning := true, errored := false }
  else
    { state := st, notifs := [], startIssued := false, stopIssued := false,
      nPolls := 0, branch := some .safe, confirmedRunning := false,
      errored := false }

/-- The overlimit (traffic at or above limit) branch of check_and_act. -/
def overlimitBranch (user : User) (env : Env) (st : MonState)
    (status : String) : CycleResult :=
  let instance_id := user.instance_id
  if status = "Running" then
    match env.stopRes with
    | .error _ =>
      { state := st, notifs := [], startIssued := false, stopIssued := false,
        nPolls := 0, branch := some .overlimit, confirmedRunning := false,
        errored := true }
    | .ok _ =>
      if can_notify st instance_id "overlimit" (some OVERLIMIT_COOLDOWN)
          env.now then
        { state := mark_notified st instance_id "overlimit" env.now,
          notifs := ["overlimit"], startIssued := false, stopIssued := true,
          nPolls := 0, branch := some .overlimit, confirmedRunning := false,
          errored := false }
      else
        { state := st, notifs := [], startIssued := false, stopIssued := true,
          nPolls := 0, branch := some .overlimit, confirmedRunning := false,
          errored := false }
  else
    if can_notify st instance_id "overlimit" (some OVERLIMIT_COOLDOWN)
        env.now then
      { state := mark_notified st instance_id "overlimit" env.now,
        notifs := ["overlimit"], startIssued := false, stopIssued := false,
        nPolls := 0, branch := some .overlimit, confirmedRunning := false,
        errored := false }
    else
      { state := st, notifs := [], startIssued := false, stopIssued := false,
        nPolls := 0, branch := some .overlimit, confirmedRunning := false,
        errored := false }

/-- A cycle aborted before reaching the branch decision (API exception or
instance not found): logged, nothing else happens. -/
def abortedCycle (st : MonState) : CycleResult :=
  { state := st, notifs := [], startIssued := false, stopIssued := false,
    nPolls := 0, branch := none, confirmedRunning := false, errored := true }

/-- check_and_act(user, tg_conf, state): query traffic (sum of the Traffic
details over 1024^3 gives curr_gb), query status, then branch on
curr_gb < limit with limit = user.get("traffic_limit", 180). -/
def check_and_act (user : User) (env : Env) (st : MonState) : CycleResult :=
  match env.traffic with
  | .error _ => abortedCycle st
  | .ok details =>
    let total_bytes : ℚ := details.sum
    let curr_gb : ℚ := total_bytes / (1024 ^ 3 : ℚ)
    match env.status with
    | .error _ => abortedCycle st
    | .ok none => abortedCycle st
    | .ok (some status) =>
      let limit := user.traffic_limit.getD 180
      if curr_gb < limit then safeBranch user env st status
      else overlimitBranch user env st status

/-- Repeated periodic invocations of check_and_act for one target: thread
the state through a list of per-cycle environments, collecting each cycle's
result. -/
def runCycles (user : User) : List Env → MonState → MonState × List CycleResult
  | [], st => (st, [])
  | e :: rest, st =>
    let r := check_and_act user e st
    let p := runCycles user rest r.state
    (p.1, r :: p.2)

/-- The loop body of main: check_and_act for each configured user in order,
threading the shared state dict. -/
def processUsers : List User → (Nat → Env) → Nat → MonState →
    MonState × List CycleResult
  | [], _, _, st => (st, [])
  | u :: rest, envs, i, st =>
    let r := check_and_act u (envs i) st
    let p := processUsers rest envs (i + 1) r.state
    (p.1, r :: p.2)

/-- config.json contents main reads: the users list (telegram credentials
are plumbing for send_tg_alert and do not affect the decisions). -/
structure Config where
  users : List User

/-- Observable outcome of one run of main: the process exit code, the state
passed to the single save_state call (none when save_state was never
reached), and the per-target cycle results. -/
structure MainResult where
  exitCode : Nat
  savedState : Option MonState
  results : List CycleResult

/-- main(): load_config exits with status 1 when the config file is absent
(before touching any target); otherwise every configured user is processed
in order and save_state is called exactly once at the end, the process
finishing with status 0. -/
def mainModel (cfgFile : Option Config) (envs : Nat → Env) (st0 : MonState) :
    MainResult :=
  match cfgFile with
  | none => { exitCode := 1, savedState := none, results := [] }
  | some cfg =>
    let p := processUsers cfg.users envs 0 st0
    { exitCode := 0, savedState := some p.1, results := p.2 }

/-! ## Shared helper lemmas -/

/-- When both queries succeed and the instance exists, check_and_act is the
quota comparison selecting between the two branches. -/
theorem check_and_act_ok (user : User) (env : Env) (st : MonState)
    (d : List ℚ) (s : String) (ht : env.traffic = .ok d)
    (hs : env.status = .ok (some s)) :
    check_and_act user env st =
      if d.sum / (1024 ^ 3 : ℚ) < user.traffic_limit.getD 180
      then safeBranch user env st s
      else overlimitBranch user env st s := by
  simp [check_and_act, ht, hs]

/-- Every result of the safe-stopped arm is tagged with the safe branch. -/
theorem safeStopped_branch (user : User) (env : Env) (st : MonState) :
    (safeStopped user env st).branch = some Branch.safe := by
  unfold safeStopped
  dsimp only
  repeat' split
  all_goals rfl

/-- Every result of the safe branch is tagged safe. -/
theorem safeBranch_branch (user : User) (env : Env) (st : MonState)
    (s : String) : (safeBranch user env st s).branch = some Branch.safe := by
  unfold safeBranch
  repeat' split
  · exact safeStopped_branch user env st
  all_goals rfl

/-- Every result of the overlimit branch is tagged overlimit. -/
theorem overlimitBranch_branch (user : User) (env : Env) (st : MonState)
    (s : String) :
    (overlimitBranch user env st s).branch = some Branch.overlimit := by
  unfold overlimitBranch
  dsimp only
  repeat' split
  all_goals rfl

/-- Looking up the key just written by setA. -/
theorem lookupA_setA_self {α : Type} (m : List (String × α)) (k : String)
    (v : α) : lookupA (setA m k v) k = some v := by
  induction m with
  | nil => simp [setA, lookupA]
  | cons p rest ih =>
    by_cases h : p.1 = k
    · simp [setA, h, lookupA]
    · simp [setA, h, lookupA, ih]

/-- setA leaves every other key unchanged. -/
theorem lookupA_setA_ne {α : Type} (m : List (String × α)) (k k2 : String)
    (v : α) (h : k ≠ k2) : lookupA (setA m k v) k2 = lookupA m k2 := by
  induction m with
  | nil => simp [setA, lookupA, h]
  | cons p rest ih =>
    by_cases hp : p.1 = k
    · simp [setA, hp, lookupA, h]
    · simp [setA, hp, lookupA, ih]

/-- delA removes the key. -/
theorem lookupA_delA_self {α : Type} (m : List (String × α)) (k : String) :
    lookupA (delA m k) k = none := by
  induction m with
  | nil => simp [delA, lookupA]
  | cons p rest ih =>
    by_cases hp : p.1 = k
    · simpa [delA, hp] using ih
    · simpa [delA, hp, lookupA] using ih

/-- delA leaves every other key unchanged. -/
theorem lookupA_delA_ne {α : Type} (m : List (String × α)) (k k2 : String)
    (h : k ≠ k2) : lookupA (delA m k) k2 = lookupA m k2 := by
  induction m with
  | nil => simp [delA, lookupA]
  | cons p rest ih =>
    by_cases hp : p.1 = k
    · have hpk2 : p.1 ≠ k2 := by rw [hp]; exact h
      have h1 : delA (p :: rest) k = delA rest k := by
        simp [delA, List.filter_cons, hp]
      rw [h1, ih]
      simp [lookupA, hpk2]
    · have h1 : delA (p :: rest) k = p :: delA rest k := by
        simp [delA, List.filter_cons, hp]
      rw [h1]
      simp only [lookupA]
      rw [ih]

/-- The updated target's inner dict after updEntry. -/
theorem getEntry_updEntry_self (st : MonState) (id : String)
    (f : InnerMap → InnerMap) :
    getEntry (updEntry st id f) id = f (getEntry st id) := by
  simp [getEntry, updEntry, lookupA_setA_self]

/-- updEntry leaves every other target's inner dict unchanged. -/
theorem getEntry_updEntry_ne (st : MonState) (id id2 : String)
    (f : InnerMap → InnerMap) (h : id ≠ id2) :
    getEntry (updEntry st id f) id2 = getEntry st id2 := by
  simp [getEntry, updEntry, lookupA_setA_ne st id id2 _ h]

/-- updEntry leaves every other target's raw entry unchanged. -/
theorem lookupA_updEntry_ne (st : MonState) (id id2 : String)
    (f : InnerMap → InnerMap) (h : id ≠ id2) :
    lookupA (updEntry st id f) id2 = lookupA st id2 := by
  simp [updEntry, lookupA_setA_ne st id id2 _ h]

/-- The branch tag of a successful cycle is exactly the quota comparison. -/
theorem branch_iff (user : User) (env : Env) (st : MonState)
    (d : List ℚ) (s : String) (ht : env.traffic = .ok d)
    (hs : env.status = .ok (some s)) :
    ((check_and_act user env st).branch = some Branch.safe ↔
      d.sum / (1024 ^ 3 : ℚ) < user.traffic_limit.getD 180) ∧
    ((check_and_act user env st).branch = some Branch.overlimit ↔
      ¬ d.sum / (1024 ^ 3 : ℚ) < user.traffic_limit.getD 180) := by
  rw [check_and_act_ok user env st d s ht hs]
  by_cases h : d.sum / (1024 ^ 3 : ℚ) < user.traffic_limit.getD 180
  · rw [if_pos h]
    simp [safeBranch_branch, h]
  · rw [if_neg h]
    simp [overlimitBranch_branch, h]

/-- The polling loop issues at most k more status queries when k intervals
cover the remaining wait budget. -/
theorem pollLoop_queries_le (poll : Nat → StatusResult) :
    ∀ k w p, START_WAIT_TIMEOUT ≤ w + k * START_POLL_INTERVAL →
    (pollLoop poll w p).queries ≤ p + k := by
  intro k
  induction k with
  | zero =>
    intro w p h
    rw [pollLoop, if_neg (by omega)]
    simp [PollOutcome.queries]
  | succ k ih =>
    intro w p h
    rw [pollLoop]
    by_cases hw : w < START_WAIT_TIMEOUT
    · rw [if_pos hw]
      cases hpoll : poll p with
      | error e => simp [PollOutcome.queries]
      | ok s =>
        dsimp only
        by_cases hs : s = some "Running"
        · rw [if_pos hs]
          simp [PollOutcome.queries]
        · rw [if_neg hs]
          have hrec := ih (w + START_POLL_INTERVAL) (p + 1) (by
            simp only [START_WAIT_TIMEOUT, START_POLL_INTERVAL] at h ⊢
            omega)
          omega
    · rw [if_neg hw]
      simp [PollOutcome.queries]

/-- If the first Running answer comes at poll index p + d while the wait
budget still covers d intervals, the loop stops right there, having issued
exactly p + d + 1 queries. -/
theorem pollLoop_first_running (poll : Nat → StatusResult) :
    ∀ d w p, w + d * START_POLL_INTERVAL < START_WAIT_TIMEOUT →
    (∀ j, j < d → ∃ s, poll (p + j) = .ok s ∧ s ≠ some "Running") →
    poll (p + d) = .ok (some "Running") →
    pollLoop poll w p = .started (p + d + 1) := by
  intro d
  induction d with
  | zero =>
    intro w p hw _ hr
    rw [pollLoop, if_pos (by omega)]
    rw [show poll p = Except.ok (some "Running") from by simpa using hr]
    simp
  | succ d ih =>
    intro w p hw hnr hr
    have hw0 : w < START_WAIT_TIMEOUT := by
      simp only [START_WAIT_TIMEOUT, START_POLL_INTERVAL] at hw ⊢
      omega
    obtain ⟨s, hs, hsne⟩ := hnr 0 (Nat.succ_pos d)
    rw [pollLoop, if_pos hw0]
    rw [show poll p = Except.ok s from by simpa using hs]
    simp only [if_neg hsne]
    have hrec := ih (w + START_POLL_INTERVAL) (p + 1)
      (by simp only [START_WAIT_TIMEOUT, START_POLL_INTERVAL] at hw ⊢; omega)
      (fun j hj => by
        have := hnr (j + 1) (by omega)
        simpa [show p + (j + 1) = p + 1 + j from by omega] using this)
      (by simpa [show p + (d + 1) = p + 1 + d from by omega] using hr)
    rw [hrec]
    congr 1
    omega

/-- The safe-stopped arm never performs more than 12 status polls. -/
theorem safeStopped_nPolls_le (user : User) (env : Env) (st : MonState) :
    (safeStopped user env st).nPolls ≤ 12 := by
  have hq : (pollLoop env.poll 0 0).queries ≤ 12 := by
    have h := pollLoop_queries_le env.poll 12 0 0
      (by simp only [START_WAIT_TIMEOUT, START_POLL_INTERVAL]; omega)
    simpa using h
  unfold safeStopped
  dsimp only
  repeat' split
  all_goals simp_all [PollOutcome.queries]

/-- No cycle ever performs more than 12 status polls. -/
theorem check_and_act_nPolls_le (user : User) (env : Env) (st : MonState) :
    (check_and_act user env st).nPolls ≤ 12 := by
  unfold check_and_act
  cases htr : env.traffic with
  | error e => simp [abortedCycle]
  | ok d =>
    dsimp only
    cases hst : env.status with
    | error e => simp [abortedCycle]
    | ok os =>
      cases os with
      | none => simp [abortedCycle]
      | some s =>
        dsimp only
        split
        · unfold safeBranch
          split
          · exact safeStopped_nPolls_le user env st
          · split
            all_goals simp
        · unfold overlimitBranch
          dsimp only
          repeat' split
          all_goals simp

/-- The cycle aborted by a traffic-query exception. -/
theorem check_and_act_eq_traffic_err (user : User) (env : Env)
    (st : MonState) (e : Unit) (h : env.traffic = .error e) :
    check_and_act user env st = abortedCycle st := by
  simp [check_and_act, h]

/-- The cycle aborted by a status-query exception. -/
theorem check_and_act_eq_status_err (user : User) (env : Env) (st : MonState)
    (d : List ℚ) (e : Unit) (ht : env.traffic = .ok d)
    (hs : env.status = .error e) :
    check_and_act user env st = abortedCycle st := by
  simp [check_and_act, ht, hs]

/-- The cycle aborted because DescribeInstances found no instance. -/
theorem check_and_act_eq_not_found (user : User) (env : Env) (st : MonState)
    (d : List ℚ) (ht : env.traffic = .ok d) (hs : env.status = .ok none) :
    check_and_act user env st = abortedCycle st := by
  simp [check_and_act, ht, hs]

/-- The safe branch on a Stopped instance is the safe-stopped arm. -/
theorem safeBranch_eq_stopped (user : User) (env : Env) (st : MonState) :
    safeBranch user env st "Stopped" = safeStopped user env st := by
  simp [safeBranch]

/-- The safe branch on a Running instance only resets the counter. -/
theorem safeBranch_eq_running (user : User) (env : Env) (st : MonState) :
    safeBranch user env st "Running" =
      { state := reset_start_failures st user.instance_id, notifs := [],
        startIssued := false, stopIssued := false, nPolls := 0,
        branch := some .safe, confirmedRunning := true,
        errored := false } := by
  simp [safeBranch]

/-- The safe branch on an intermediate status does nothing. -/
theorem safeBranch_eq_other (user : User) (env : Env) (st : MonState)
    (s : String) (h1 : s ≠ "Stopped") (h2 : s ≠ "Running") :
    safeBranch user env st s =
      { state := st, notifs := [], startIssued := false, stopIssued := false,
        nPolls := 0, branch := some .safe, confirmedRunning := false,
        errored := false } := by
  simp [safeBranch, h1, h2]

/-- The safe-stopped arm under the no-resource gate: no start attempt, at
most a no_resource notification. -/
theorem safeStopped_eq_gate (user : User) (env : Env) (st : MonState)
    (h : MAX_START_FAILURES ≤ get_start_failures st user.instance_id) :
    safeStopped user env st =
      if can_notify st user.instance_id "no_resource" none env.now then
        { state := mark_notified st user.instance_id "no_resource" env.now,
          notifs := ["no_resource"], startIssued := false,
          stopIssued := false, nPolls := 0, branch := some .safe,
          confirmedRunning := false, errored := false }
      else
        { state := st, notifs := [], startIssued := false,
          stopIssued := false, nPolls := 0, branch := some .safe,
          confirmedRunning := false, errored := false } := by
  unfold safeStopped
  dsimp only
  rw [if_pos h]

/-- The safe-stopped arm when the start command itself raises. -/
theorem safeStopped_eq_start_err (user : User) (env : Env) (st : MonState)
    (e : Unit)
    (h : ¬ MAX_START_FAILURES ≤ get_start_failures st user.instance_id)
    (hs : env.startRes = .error e) :
    safeStopped user env st =
      { state := st, notifs := [], startIssued := false, stopIssued := false,
        nPolls := 0, branch := some .safe, confirmedRunning := false,
        errored := true } := by
  unfold safeStopped
  dsimp only
  rw [if_neg h, hs]

/-- The safe-stopped arm when a poll inside the waiting loop raises. -/
theorem safeStopped_eq_poll_err (user : User) (env : Env) (st : MonState)
    (n : Nat)
    (h : ¬ MAX_START_FAILURES ≤ get_start_failures st user.instance_id)
    (hs : env.startRes = .ok ()) (hp : pollLoop env.poll 0 0 = .errored n) :
    safeStopped user env st =
      { state := st, notifs := [], startIssued := true, stopIssued := false,
        nPolls := n, branch := some .safe, confirmedRunning := false,
        errored := true } := by
  unfold safeStopped
  dsimp only
  rw [if_neg h, hs]
  dsimp only
  rw [hp]

/-- The safe-stopped arm when the started instance is confirmed Running:
reset the counter, drop the no_resource stamp, maybe notify resumed. -/
theorem safeStopped_eq_started (user : User) (env : Env) (st : MonState)
    (n : Nat)
    (h : ¬ MAX_START_FAILURES ≤ get_start_failures st user.instance_id)
    (hs : env.startRes = .ok ()) (hp : pollLoop env.poll 0 0 = .started n) :
    safeStopped user env st =
      (if can_notify (updEntry (reset_start_failures st user.instance_id)
            user.instance_id (fun m => delA m "no_resource"))
          user.instance_id "resumed" none env.now then
        { state := mark_notified
            (updEntry (reset_start_failures st user.instance_id)
              user.instance_id (fun m => delA m "no_resource"))
            user.instance_id "resumed" env.now,
          notifs := ["resumed"], startIssued := true, stopIssued := false,
          nPolls := n, branch := some .safe, confirmedRunning := true,
          errored := false }
      else
        { state := updEntry (reset_start_failures st user.instance_id)
            user.instance_id (fun m => delA m "no_resource"),
          notifs := [], startIssued := true, stopIssued := false,
          nPolls := n, branch := some .safe, confirmedRunning := true,
          errored := false }) := by
  unfold safeStopped
  dsimp only
  rw [if_neg h, hs]
  dsimp only
  rw [hp]

/-- The safe-stopped arm on timeout: count one more failure, maybe notify
start_failed. -/
theorem safeStopped_eq_timeout (user : User) (env : Env) (st : MonState)
    (n : Nat)
    (h : ¬ MAX_START_FAILURES ≤ get_start_failures st user.instance_id)
    (hs : env.startRes = .ok ()) (hp : pollLoop env.poll 0 0 = .timedOut n) :
    safeStopped user env st =
      (if can_notify (set_start_failures st user.instance_id
            (get_start_failures st user.instance_id + 1))
          user.instance_id "start_failed" none env.now then
        { state := mark_notified (set_start_failures st user.instance_id
              (get_start_failures st user.instance_id + 1))
            user.instance_id "start_failed" env.now,
          notifs := ["start_failed"], startIssued := true,
          stopIssued := false, nPolls := n, branch := some .safe,
          confirmedRunning := false, errored := false }
      else
        { state := set_start_failures st user.instance_id
            (get_start_failures st user.instance_id + 1),
          notifs := [], startIssued := true, stopIssued := false,
          nPolls := n, branch := some .safe, confirmedRunning := false,
          errored := false }) := by
  unfold safeStopped
  dsimp only
  rw [if_neg h, hs]
  dsimp only
  rw [hp]

/-- The overlimit branch on a Running instance with a failing stop call. -/
theorem overlimitBranch_eq_stop_err (user : User) (env : Env) (st : MonState)
    (e : Unit) (hs : env.stopRes = .error e) :
    overlimitBranch user env st "Running" =
      { state := st, notifs := [], startIssued := false, stopIssued := false,
        nPolls := 0, branch := some .overlimit, confirmedRunning := false,
        errored := true } := by
  unfold overlimitBranch
  dsimp only
  rw [if_pos rfl, hs]

/-- The overlimit branch on a Running instance: stop it, maybe notify. -/
theorem overlimitBranch_eq_running (user : User) (env : Env) (st : MonState)
    (hs : env.stopRes = .ok ()) :
    overlimitBranch user env st "Running" =
      (if can_notify st user.instance_id "overlimit"
          (some OVERLIMIT_COOLDOWN) env.now then
        { state := mark_notified st user.instance_id "overlimit" env.now,
          notifs := ["overlimit"], startIssued := false, stopIssued := true,
          nPolls := 0, branch := some .overlimit, confirmedRunning := false,
          errored := false }
      else
        { state := st, notifs := [], startIssued := false,
          stopIssued := true, nPolls := 0, branch := some .overlimit,
          confirmedRunning := false, errored := false }) := by
  unfold overlimitBranch
  dsimp only
  rw [if_pos rfl, hs]

/-- The overlimit branch on a non-Running instance: no stop, maybe notify. -/
theorem overlimitBranch_eq_not_running (user : User) (env : Env)
    (st : MonState) (s : String) (hs : s ≠ "Running") :
    overlimitBranch user env st s =
      (if can_notify st user.instance_id "overlimit"
          (some OVERLIMIT_COOLDOWN) env.now then
        { state := mark_notified st user.instance_id "overlimit" env.now,
          notifs := ["overlimit"], startIssued := false, stopIssued := false,
          nPolls := 0, branch := some .overlimit, confirmedRunning := false,
          errored := false }
      else
        { state := st, notifs := [], startIssued := false,
          stopIssued := false, nPolls := 0, branch := some .overlimit,
          confirmedRunning := false, errored := false }) := by
  unfold overlimitBranch
  dsimp only
  rw [if_neg hs]

/-- Reading back a counter just set. -/
theorem get_start_failures_set (st : MonState) (id : String) (c : ℚ) :
    get_start_failures (set_start_failures st id c) id = c := by
  simp [get_start_failures, set_start_failures, getD, getEntry_updEntry_self,
    lookupA_setA_self]

/-- Reading back a counter just reset. -/
theorem get_start_failures_reset (st : MonState) (id : String) :
    get_start_failures (reset_start_failures st id) id = 0 := by
  simp [get_start_failures, reset_start_failures, getD,
    getEntry_updEntry_self, lookupA_setA_self]

/-- Recording an event timestamp never touches any start-failure counter. -/
theorem get_start_failures_mark (st : MonState) (id id2 k : String) (now : ℚ)
    (hk : k ≠ "start_failures") :
    get_start_failures (mark_notified st id k now) id2 =
      get_start_failures st id2 := by
  by_cases h : id = id2
  · subst h
    simp [get_start_failures, mark_notified, getD, getEntry_updEntry_self,
      lookupA_setA_ne _ k _ _ hk]
  · simp [get_start_failures, mark_notified, getD,
      getEntry_updEntry_ne st id id2 _ h]

/-- Dropping the no_resource stamp never touches a counter. -/
theorem get_start_failures_del (st : MonState) (id id2 : String) :
    get_start_failures
        (updEntry st id (fun m => delA m "no_resource")) id2 =
      get_start_failures st id2 := by
  by_cases h : id = id2
  · subst h
    simp [get_start_failures, getD, getEntry_updEntry_self,
      lookupA_delA_ne _ "no_resource" "start_failures" (by decide)]
  · simp [get_start_failures, getD, getEntry_updEntry_ne st id id2 _ h]

/-- C2: the persisted start-failure counter starts at 0 when absent from
history, is incremented by exactly 1 on a cycle that issued a start but did
not observe Running within the timeout, is reset to exactly 0 on any cycle
that confirms Running (after a start, or steady-state Running in the safe
branch), and is never modified by an overlimit-branch cycle (including the
stop action). -/
theorem failure_counter (user : User) (env : Env) (st : MonState)
    (d : List ℚ) (s : String) (n : Nat) (id : String) :
    get_start_failures [] id = 0 ∧
    (env.traffic = .ok d → env.status = .ok (some "Stopped") →
      d.sum / (1024 ^ 3 : ℚ) < user.traffic_limit.getD 180 →
      ¬ MAX_START_FAILURES ≤ get_start_failures st user.instance_id →
      env.startRes = .ok () → pollLoop env.poll 0 0 = .timedOut n →
      get_start_failures (check_and_act user env st).state user.instance_id
        = get_start_failures st user.instance_id + 1) ∧
    (env.traffic = .ok d → env.status = .ok (some "Stopped") →
      d.sum / (1024 ^ 3 : ℚ) < user.traffic_limit.getD 180 →
      ¬ MAX_START_FAILURES ≤ get_start_failures st user.instance_id →
      env.startRes = .ok () → pollLoop env.poll 0 0 = .started n →
      get_start_failures (check_and_act user env st).state user.instance_id
        = 0) ∧
    (env.traffic = .ok d → env.status = .ok (some "Running") →
      d.sum / (1024 ^ 3 : ℚ) < user.traffic_limit.getD 180 →
      get_start_failures (check_and_act user env st).state user.instance_id
        = 0) ∧
    (env.traffic = .ok d → env.status = .ok (some s) →
      ¬ d.sum / (1024 ^ 3 : ℚ) < user.traffic_limit.getD 180 →
      ∀ id2, get_start_failures (check_and_act user env st).state id2
        = get_start_failures st id2) := by
  refine ⟨by simp [get_start_failures, getEntry, getD, lookupA],
    fun ht hs hlt hgate hok hp => ?_, fun ht hs hlt hgate hok hp => ?_,
    fun ht hs hlt => ?_, fun ht hs hge id2 => ?_⟩
  · rw [check_and_act_ok user env st d "Stopped" ht hs, if_pos hlt,
      safeBranch_eq_stopped,
      safeStopped_eq_timeout user env st n hgate hok hp]
    split
    · rw [get_start_failures_mark _ _ _ "start_failed" _ (by decide),
        get_start_failures_set]
    · rw [get_start_failures_set]
  · rw [check_and_act_ok user env st d "Stopped" ht hs, if_pos hlt,
      safeBranch_eq_stopped,
      safeStopped_eq_started user env st n hgate hok hp]
    split
    · rw [get_start_failures_mark _ _ _ "resumed" _ (by decide),
        get_start_failures_del, get_start_failures_reset]
    · rw [get_start_failures_del, get_start_failures_reset]
  · rw [check_and_act_ok user env st d "Running" ht hs, if_pos hlt,
      safeBranch_eq_running]
    simp [get_start_failures_reset]
  · rw [check_and_act_ok user env st d s ht hs, if_neg hge]
    by_cases hr : s = "Running"
    · subst hr
      cases hstop : env.stopRes with
      | error e =>
        rw [overlimitBranch_eq_stop_err user env st e hstop]
      | ok u =>
        rw [overlimitBranch_eq_running user env st hstop]
        split
        · exact get_start_failures_mark _ _ _ "overlimit" _ (by decide)
        · rfl
    · rw [overlimitBranch_eq_not_running user env st s hr]
      split
      · exact get_start_failures_mark _ _ _ "overlimit" _ (by decide)
      · rfl

/-- Witness for C2: concrete runs of all four counter behaviours. -/
theorem failure_counter_witness :
    get_start_failures [] "i-1" = 0 ∧
    get_start_failures (check_and_act ⟨"i-1", none⟩
        ⟨.ok [], .ok (some "Stopped"), .ok (), .ok (),
          fun _ => .ok (some "Starting"), 0⟩ []).state "i-1" = 1 ∧
    get_start_failures (check_and_act ⟨"i-1", none⟩
        ⟨.ok [], .ok (some "Stopped"), .ok (), .ok (),
          fun _ => .ok (some "Running"), 0⟩
        [("i-1", [("start_failures", 2)])]).state "i-1" = 0 ∧
    get_start_failures (check_and_act ⟨"i-1", none⟩
        ⟨.ok [], .ok (some "Running"), .ok (), .ok (),
          fun _ => .ok none, 0⟩
        [("i-1", [("start_failures", 2)])]).state "i-1" = 0 ∧
    get_start_failures (check_and_act ⟨"i-1", none⟩
        ⟨.ok [200 * 1024 ^ 3], .ok (some "Running"), .ok (), .ok (),
          fun _ => .ok none, 86400⟩
        [("i-1", [("start_failures", 2)])]).state "i-1" = 2 := by
  have h1 := failure_counter ⟨"i-1", none⟩
    ⟨.ok [], .ok (some "Stopped"), .ok (), .ok (),
      fun _ => .ok (some "Starting"), 0⟩ [] [] "Stopped" 12 "i-1"
  have h2 := failure_counter ⟨"i-1", none⟩
    ⟨.ok [], .ok (some "Stopped"), .ok (), .ok (),
      fun _ => .ok (some "Running"), 0⟩
    [("i-1", [("start_failures", 2)])] [] "Stopped" 1 "i-1"
  have h3 := failure_counter ⟨"i-1", none⟩
    ⟨.ok [], .ok (some "Running"), .ok (), .ok (), fun _ => .ok none, 0⟩
    [("i-1", [("start_failures", 2)])] [] "Running" 0 "i-1"
  have h4 := failure_counter ⟨"i-1", none⟩
    ⟨.ok [200 * 1024 ^ 3], .ok (some "Running"), .ok (), .ok (),
      fun _ => .ok none, 86400⟩
    [("i-1", [("start_failures", 2)])] [200 * 1024 ^ 3] "Running" 0 "i-1"
  have hfail0 : ¬ MAX_START_FAILURES ≤
      get_start_failures ([] : MonState) "i-1" := by
    simp [get_start_failures, getEntry, getD, lookupA, MAX_START_FAILURES]
  have hfail2 : ¬ MAX_START_FAILURES ≤ get_start_failures
      ([("i-1", [("start_failures", 2)])] : MonState) "i-1" := by
    simp [get_start_failures, getEntry, getD, lookupA, MAX_START_FAILURES]
    norm_num
  refine ⟨h1.1, ?_, ?_, ?_, ?_⟩
  · have := h1.2.1 rfl rfl (by norm_num) hfail0 rfl
      (by simp [pollLoop, START_WAIT_TIMEOUT, START_POLL_INTERVAL])
    simp only [get_start_failures, getEntry, getD, lookupA] at this ⊢
    rw [this]
    norm_num
  · exact h2.2.2.1 rfl rfl (by norm_num) hfail2 rfl
      (by rw [pollLoop]; norm_num [START_WAIT_TIMEOUT])
  · exact h3.2.2.2.1 rfl rfl (by norm_num)
  · have := h4.2.2.2.2 rfl rfl (by norm_num) "i-1"
    rw [this]
    simp [get_start_failures, getEntry, getD, lookupA]

/-- A cycle entered with the failure counter at or above the threshold
never issues a start command, and (unless it confirms Running) leaves the
counter exactly where it was. -/
theorem gate_cycle_facts (user : User) (env : Env) (st : MonState)
    (hge : MAX_START_FAILURES ≤ get_start_failures st user.instance_id) :
    (check_and_act user env st).startIssued = false ∧
    ((check_and_act user env st).confirmedRunning = false →
      get_start_failures (check_and_act user env st).state user.instance_id
        = get_start_failures st user.instance_id) := by
  unfold check_and_act
  cases htr : env.traffic with
  | error e => exact ⟨rfl, fun _ => rfl⟩
  | ok d =>
    dsimp only
    cases hst : env.status with
    | error e => exact ⟨rfl, fun _ => rfl⟩
    | ok os =>
      cases os with
      | none => exact ⟨rfl, fun _ => rfl⟩
      | some s =>
        dsimp only
        split
        · unfold safeBranch
          split
          · rw [safeStopped_eq_gate user env st hge]
            split
            · exact ⟨rfl, fun _ =>
                get_start_failures_mark _ _ _ "no_resource" _ (by decide)⟩
            · exact ⟨rfl, fun _ => rfl⟩
          · split
            · exact ⟨rfl, fun hc => by simp at hc⟩
            · exact ⟨rfl, fun _ => rfl⟩
        · cases hs : s == "Running" with
          | true =>
            have hs1 : s = "Running" := by simpa using hs
            subst hs1
            cases hstop : env.stopRes with
            | error e =>
              rw [overlimitBranch_eq_stop_err user env st e hstop]
              exact ⟨rfl, fun _ => rfl⟩
            | ok u =>
              rw [overlimitBranch_eq_running user env st hstop]
              split
              · exact ⟨rfl, fun _ =>
                  get_start_failures_mark _ _ _ "overlimit" _ (by decide)⟩
              · exact ⟨rfl, fun _ => rfl⟩
          | false =>
            have hs1 : s ≠ "Running" := by simpa using hs
            rw [overlimitBranch_eq_not_running user env st s hs1]
            split
            · exact ⟨rfl, fun _ =>
                get_start_failures_mark _ _ _ "overlimit" _ (by decide)⟩
            · exact ⟨rfl, fun _ => rfl⟩

/-- Over a whole run of cycles: while the counter stays gated (no cycle
confirms Running), no start command is ever issued. -/
theorem runCycles_no_start (user : User) :
    ∀ envs st,
    MAX_START_FAILURES ≤ get_start_failures st user.instance_id →
    (∀ r ∈ (runCycles user envs st).2, r.confirmedRunning = false) →
    ∀ r ∈ (runCycles user envs st).2, r.startIssued = false := by
  intro envs
  induction envs with
  | nil =>
    intro st hge hnc r hr
    simp [runCycles] at hr
  | cons e rest ih =>
    intro st hge hnc r hr
    simp only [runCycles, List.mem_cons] at hr hnc
    cases hr with
    | inl h =>
      subst h
      exact (gate_cycle_facts user e st hge).1
    | inr h =>
      have hcr : (check_and_act user e st).confirmedRunning = false :=
        hnc _ (Or.inl rfl)
      have hcounter := (gate_cycle_facts user e st hge).2 hcr
      exact ih (check_and_act user e st).state (by rw [hcounter]; exact hge)
        (fun r2 hr2 => hnc r2 (Or.inr hr2)) r h

/-- C3: once the stored start-failure count reaches the threshold 3, no
start command is issued in that cycle or any later cycle as long as no
cycle confirms Running (the only event that resets the count), and the
exhaustion-notification (no_resource) path never modifies the count. -/
theorem exhaustion_gate (user : User) (envs : List Env) (env : Env)
    (st : MonState) (d : List ℚ) :
    (MAX_START_FAILURES ≤ get_start_failures st user.instance_id →
      (∀ r ∈ (runCycles user envs st).2, r.confirmedRunning = false) →
      ∀ r ∈ (runCycles user envs st).2, r.startIssued = false) ∧
    (env.traffic = .ok d → env.status = .ok (some "Stopped") →
      d.sum / (1024 ^ 3 : ℚ) < user.traffic_limit.getD 180 →
      MAX_START_FAILURES ≤ get_start_failures st user.instance_id →
      (check_and_act user env st).startIssued = false ∧
      get_start_failures (check_and_act user env st).state user.instance_id
        = get_start_failures st user.instance_id) := by
  refine ⟨runCycles_no_start user envs st,
    fun ht hs hlt hge => ?_⟩
  rw [check_and_act_ok user env st d "Stopped" ht hs, if_pos hlt,
    safeBranch_eq_stopped, safeStopped_eq_gate user env st hge]
  split
  · exact ⟨rfl, get_start_failures_mark _ _ _ "no_resource" _ (by decide)⟩
  · exact ⟨rfl, rfl⟩

/-- Witness for C3: with the counter at 3, a gated cycle issues no start,
sends the no_resource alert and keeps the counter at 3. -/
theorem exhaustion_gate_witness :
    (∀ r ∈ (runCycles ⟨"i-1", none⟩
      [⟨.ok [], .ok (some "Stopped"), .ok (), .ok (), fun _ => .ok none,
        1000000⟩] [("i-1", [("start_failures", 3)])]).2,
      r.startIssued = false) ∧
    get_start_failures (check_and_act ⟨"i-1", none⟩
      ⟨.ok [], .ok (some "Stopped"), .ok (), .ok (), fun _ => .ok none,
        1000000⟩ [("i-1", [("start_failures", 3)])]).state "i-1" = 3 := by
  have hge : MAX_START_FAILURES ≤ get_start_failures
      ([("i-1", [("start_failures", 3)])] : MonState) "i-1" := by
    simp [get_start_failures, getEntry, getD, lookupA, MAX_START_FAILURES]
  have h := exhaustion_gate ⟨"i-1", none⟩
    [⟨.ok [], .ok (some "Stopped"), .ok (), .ok (), fun _ => .ok none,
      1000000⟩]
    ⟨.ok [], .ok (some "Stopped"), .ok (), .ok (), fun _ => .ok none,
      1000000⟩
    [("i-1", [("start_failures", 3)])] []
  have hcyc := h.2 rfl rfl (by norm_num) hge
  have hconc : check_and_act ⟨"i-1", none⟩
      ⟨.ok [], .ok (some "Stopped"), .ok (), .ok (), fun _ => .ok none,
        1000000⟩ [("i-1", [("start_failures", 3)])] =
      { state := [("i-1", [("start_failures", 3),
          ("no_resource", 1000000)])],
        notifs := ["no_resource"], startIssued := false, stopIssued := false,
        nPolls := 0, branch := some .safe, confirmedRunning := false,
        errored := false } := by
    rw [check_and_act_ok _ _ _ [] "Stopped" rfl rfl, if_pos (by norm_num),
      safeBranch_eq_stopped, safeStopped_eq_gate _ _ _ hge,
      if_pos (by
        simp [can_notify, getEntry, getD, lookupA, NOTIFY_COOLDOWN]
        norm_num)]
    simp [mark_notified, updEntry, getEntry, lookupA, setA]
  constructor
  · refine h.1 hge ?_
    intro r hr
    simp only [runCycles, hconc, List.mem_cons] at hr
    rcases hr with h1 | h1
    · rw [h1]
    · simp [runCycles] at h1
  · rw [hcyc.2]
    simp [get_start_failures, getEntry, getD, lookupA]

/-- An aborted cycle leaves the history untouched and notifies nobody. -/
theorem errored_frame (user : User) (env : Env) (st : MonState)
    (he : (check_and_act user env st).errored = true) :
    (check_and_act user env st).state = st ∧
    (check_and_act user env st).notifs = [] := by
  cases htr : env.traffic with
  | error e =>
    rw [check_and_act_eq_traffic_err user env st e htr]
    exact ⟨rfl, rfl⟩
  | ok d =>
    cases hst : env.status with
    | error e =>
      rw [check_and_act_eq_status_err user env st d e htr hst]
      exact ⟨rfl, rfl⟩
    | ok os =>
      cases os with
      | none =>
        rw [check_and_act_eq_not_found user env st d htr hst]
        exact ⟨rfl, rfl⟩
      | some s =>
        rw [check_and_act_ok user env st d s htr hst] at he ⊢
        by_cases hlt : d.sum / (1024 ^ 3 : ℚ) < user.traffic_limit.getD 180
        · rw [if_pos hlt] at he ⊢
          by_cases hsd : s = "Stopped"
          · subst hsd
            rw [safeBranch_eq_stopped] at he ⊢
            by_cases hge : MAX_START_FAILURES ≤
                get_start_failures st user.instance_id
            · rw [safeStopped_eq_gate user env st hge] at he
              split at he <;> simp at he
            · cases hsr : env.startRes with
              | error e2 =>
                rw [safeStopped_eq_start_err user env st e2 hge hsr]
                exact ⟨rfl, rfl⟩
              | ok u =>
                cases u
                cases hp : pollLoop env.poll 0 0 with
                | errored n =>
                  rw [safeStopped_eq_poll_err user env st n hge hsr hp]
                  exact ⟨rfl, rfl⟩
                | started n =>
                  rw [safeStopped_eq_started user env st n hge hsr hp] at he
                  split at he <;> simp at he
                | timedOut n =>
                  rw [safeStopped_eq_timeout user env st n hge hsr hp] at he
                  split at he <;> simp at he
          · by_cases hrun : s = "Running"
            · subst hrun
              rw [safeBranch_eq_running] at he
              simp at he
            · rw [safeBranch_eq_other user env st s hsd hrun] at he
              simp at he
        · rw [if_neg hlt] at he ⊢
          by_cases hrun : s = "Running"
          · subst hrun
            cases hstop : env.stopRes with
            | error e2 =>
              rw [overlimitBranch_eq_stop_err user env st e2 hstop]
              exact ⟨rfl, rfl⟩
            | ok u =>
              cases u
              rw [overlimitBranch_eq_running user env st hstop] at he
              split at he <;> simp at he
          · rw [overlimitBranch_eq_not_running user env st s hrun] at he
            split at he <;> simp at he

/-- processUsers produces one cycle result for every configured user. -/
theorem processUsers_length :
    ∀ (users : List User) (envs : Nat → Env) (i : Nat) (st : MonState),
    (processUsers users envs i st).2.length = users.length := by
  intro users
  induction users with
  | nil => intro envs i st; rfl
  | cons u rest ih =>
    intro envs i st
    simp only [processUsers, List.length_cons]
    rw [ih]

/-- C7: a cloud-gateway error during a target's cycle (traffic query,
status query, start, stop, a poll inside the wait loop, or instance not
found) aborts only that cycle: no notification is sent and the target's
history — the whole state dict — is exactly as before; the orchestrator
still evaluates every remaining target and saves the combined history once
at the end of the run. -/
theorem error_isolated (user : User) (env : Env) (st : MonState)
    (d : List ℚ) (n : Nat) (e : Unit) (cfg : Config) (envs : Nat → Env)
    (st0 : MonState) :
    ((check_and_act user env st).errored = true →
      (check_and_act user env st).state = st ∧
      (check_and_act user env st).notifs = []) ∧
    (env.traffic = .error e → (check_and_act user env st).errored = true) ∧
    (env.traffic = .ok d → env.status = .error e →
      (check_and_act user env st).errored = true) ∧
    (env.traffic = .ok d → env.status = .ok none →
      (check_and_act user env st).errored = true) ∧
    (env.traffic = .ok d → env.status = .ok (some "Stopped") →
      d.sum / (1024 ^ 3 : ℚ) < user.traffic_limit.getD 180 →
      ¬ MAX_START_FAILURES ≤ get_start_failures st user.instance_id →
      env.startRes = .error e →
      (check_and_act user env st).errored = true) ∧
    (env.traffic = .ok d → env.status = .ok (some "Stopped") →
      d.sum / (1024 ^ 3 : ℚ) < user.traffic_limit.getD 180 →
      ¬ MAX_START_FAILURES ≤ get_start_failures st user.instance_id →
      env.startRes = .ok () → pollLoop env.poll 0 0 = .errored n →
      (check_and_act user env st).errored = true) ∧
    (env.traffic = .ok d → env.status = .ok (some "Running") →
      ¬ d.sum / (1024 ^ 3 : ℚ) < user.traffic_limit.getD 180 →
      env.stopRes = .error e →
      (check_and_act user env st).errored = true) ∧
    (mainModel (some cfg) envs st0).results.length = cfg.users.length ∧
    (mainModel (some cfg) envs st0).savedState =
      some (processUsers cfg.users envs 0 st0).1 := by
  refine ⟨errored_frame user env st, fun ht => ?_, fun ht hs => ?_,
    fun ht hs => ?_, fun ht hs hlt hge hsr => ?_,
    fun ht hs hlt hge hsr hp => ?_, fun ht hs hge hstop => ?_,
    processUsers_length cfg.users envs 0 st0, rfl⟩
  · rw [check_and_act_eq_traffic_err user env st e ht]
    rfl
  · rw [check_and_act_eq_status_err user env st d e ht hs]
    rfl
  · rw [check_and_act_eq_not_found user env st d ht hs]
    rfl
  · rw [check_and_act_ok user env st d "Stopped" ht hs, if_pos hlt,
      safeBranch_eq_stopped, safeStopped_eq_start_err user env st e hge hsr]
  · rw [check_and_act_ok user env st d "Stopped" ht hs, if_pos hlt,
      safeBranch_eq_stopped,
      safeStopped_eq_poll_err user env st n hge hsr hp]
  · rw [check_and_act_ok user env st d "Running" ht hs, if_neg hge,
      overlimitBranch_eq_stop_err user env st e hstop]

/-- Witness for C7: a failing traffic query aborts the cycle and leaves a
concrete state dict untouched with no notification. -/
theorem error_isolated_witness :
    (check_and_act ⟨"i-1", none⟩
      ⟨.error (), .ok (some "Running"), .ok (), .ok (), fun _ => .ok none,
        0⟩ [("i-1", [("resumed", 7)])]).state = [("i-1", [("resumed", 7)])] ∧
    (check_and_act ⟨"i-1", none⟩
      ⟨.error (), .ok (some "Running"), .ok (), .ok (), fun _ => .ok none,
        0⟩ [("i-1", [("resumed", 7)])]).notifs = [] ∧
    (mainModel (some ⟨[⟨"i-1", none⟩, ⟨"i-2", none⟩]⟩)
      (fun _ => ⟨.error (), .ok (some "Running"), .ok (), .ok (),
        fun _ => .ok none, 0⟩) []).results.length = 2 := by
  have h := error_isolated ⟨"i-1", none⟩
    ⟨.error (), .ok (some "Running"), .ok (), .ok (), fun _ => .ok none, 0⟩
    [("i-1", [("resumed", 7)])] [] 0 () ⟨[⟨"i-1", none⟩, ⟨"i-2", none⟩]⟩
    (fun _ => ⟨.error (), .ok (some "Running"), .ok (), .ok (),
      fun _ => .ok none, 0⟩) []
  have herr := h.2.1 rfl
  obtain ⟨h1, h2⟩ := h.1 herr
  exact ⟨h1, h2, h.2.2.2.2.2.2.2.1⟩

/-- C9: the orchestrator exits with status 1, before any target is
processed and before any save, when the configuration cannot be loaded;
otherwise it exits with status 0 having processed every configured target
(even if their cycles failed) and saved the history exactly once, at the
end. -/
theorem config_exit_codes (envs : Nat → Env) (st0 : MonState)
    (cfg : Config) :
    mainModel none envs st0 =
      { exitCode := 1, savedState := none, results := [] } ∧
    (mainModel (some cfg) envs st0).exitCode = 0 ∧
    (mainModel (some cfg) envs st0).results.length = cfg.users.length ∧
    (mainModel (some cfg) envs st0).savedState =
      some (processUsers cfg.users envs 0 st0).1 := by
  exact ⟨rfl, rfl, processUsers_length cfg.users envs 0 st0, rfl⟩

/-- Counterexample to C8 as stated: on a confirmed-start cycle the resumed
timestamp — an event timestamp other than no_resource and start_failed —
is overwritten with the current time whenever the resumed notification
fires, so not every other event timestamp is left unchanged. -/
theorem resumed_timestamp_counterexample :
    (check_and_act ⟨"i-1", none⟩
      ⟨.ok [], .ok (some "Stopped"), .ok (), .ok (),
        fun _ => .ok (some "Running"), 1000000⟩
      [("i-1", [("resumed", 0)])]).confirmedRunning = true ∧
    lookupA (getEntry (check_and_act ⟨"i-1", none⟩
      ⟨.ok [], .ok (some "Stopped"), .ok (), .ok (),
        fun _ => .ok (some "Running"), 1000000⟩
      [("i-1", [("resumed", 0)])]).state "i-1") "resumed" = some 1000000 ∧
    lookupA (getEntry [("i-1", [("resumed", (0 : ℚ))])] "i-1") "resumed"
      = some 0 := by
  have hge : ¬ MAX_START_FAILURES ≤ get_start_failures
      ([("i-1", [("resumed", 0)])] : MonState) "i-1" := by
    simp [get_start_failures, getEntry, getD, lookupA, MAX_START_FAILURES]
  have hp : pollLoop (fun _ => (.ok (some "Running") : StatusResult)) 0 0
      = .started 1 := by
    rw [pollLoop]
    norm_num [START_WAIT_TIMEOUT]
  rw [check_and_act_ok _ _ _ [] "Stopped" rfl rfl, if_pos (by norm_num),
    safeBranch_eq_stopped, safeStopped_eq_started _ _ _ 1 hge rfl hp,
    if_pos (by
      simp [can_notify, updEntry, reset_start_failures, getEntry, getD,
        lookupA, setA, delA, NOTIFY_COOLDOWN]
      norm_num)]
  refine ⟨rfl, ?_, by simp [getEntry, lookupA]⟩
  simp [mark_notified, updEntry, reset_start_failures, getEntry, lookupA,
    setA, delA]

/-- C8 (amended): on every confirmed-start cycle the engine removes the
stored no_resource timestamp, leaves the stored start_failed timestamp
unchanged, leaves every event timestamp of that target other than
no_resource, resumed and the start_failures counter unchanged, sets the
resumed timestamp to the current time exactly when the resumed notification
fires (otherwise leaves it unchanged), and leaves every other target's
history entry unchanged. -/
theorem confirmed_start_frame (user : User) (env : Env) (st : MonState)
    (d : List ℚ) (n : Nat) (ht : env.traffic = .ok d)
    (hs : env.status = .ok (some "Stopped"))
    (hlt : d.sum / (1024 ^ 3 : ℚ) < user.traffic_limit.getD 180)
    (hge : ¬ MAX_START_FAILURES ≤ get_start_failures st user.instance_id)
    (hsr : env.startRes = .ok ())
    (hp : pollLoop env.poll 0 0 = .started n) :
    lookupA (getEntry (check_and_act user env st).state user.instance_id)
      "no_resource" = none ∧
    lookupA (getEntry (check_and_act user env st).state user.instance_id)
        "start_failed"
      = lookupA (getEntry st user.instance_id) "start_failed" ∧
    (∀ k, k ≠ "no_resource" → k ≠ "start_failures" → k ≠ "resumed" →
      lookupA (getEntry (check_and_act user env st).state user.instance_id) k
        = lookupA (getEntry st user.instance_id) k) ∧
    (lookupA (getEntry (check_and_act user env st).state user.instance_id)
        "resumed" = lookupA (getEntry st user.instance_id) "resumed" ∨
      lookupA (getEntry (check_and_act user env st).state user.instance_id)
        "resumed" = some env.now) ∧
    (∀ id2, id2 ≠ user.instance_id →
      lookupA (check_and_act user env st).state id2 = lookupA st id2) := by
  rw [check_and_act_ok user env st d "Stopped" ht hs, if_pos hlt,
    safeBranch_eq_stopped, safeStopped_eq_started user env st n hge hsr hp]
  by_cases hcn : can_notify
      (updEntry (reset_start_failures st user.instance_id)
        user.instance_id (fun m => delA m "no_resource"))
      user.instance_id "resumed" none env.now = true
  · rw [if_pos hcn]
    dsimp only
    refine ⟨?_, ?_, fun k hk1 hk2 hk3 => ?_, Or.inr ?_, fun id2 h2 => ?_⟩
    · rw [mark_notified, getEntry_updEntry_self,
        lookupA_setA_ne _ "resumed" "no_resource" _ (by decide),
        getEntry_updEntry_self, lookupA_delA_self]
    · rw [mark_notified, getEntry_updEntry_self,
        lookupA_setA_ne _ "resumed" "start_failed" _ (by decide),
        getEntry_updEntry_self,
        lookupA_delA_ne _ "no_resource" "start_failed" (by decide),
        reset_start_failures, getEntry_updEntry_self,
        lookupA_setA_ne _ "start_failures" "start_failed" _ (by decide)]
    · rw [mark_notified, getEntry_updEntry_self,
        lookupA_setA_ne _ "resumed" k _ (Ne.symm hk3),
        getEntry_updEntry_self,
        lookupA_delA_ne _ "no_resource" k (Ne.symm hk1),
        reset_start_failures, getEntry_updEntry_self,
        lookupA_setA_ne _ "start_failures" k _ (Ne.symm hk2)]
    · rw [mark_notified, getEntry_updEntry_self, lookupA_setA_self]
    · rw [mark_notified, lookupA_updEntry_ne _ _ _ _ (Ne.symm h2),
        lookupA_updEntry_ne _ _ _ _ (Ne.symm h2),
        reset_start_failures, lookupA_updEntry_ne _ _ _ _ (Ne.symm h2)]
  · rw [if_neg hcn]
    dsimp only
    refine ⟨?_, ?_, fun k hk1 hk2 hk3 => ?_, Or.inl ?_, fun id2 h2 => ?_⟩
    · rw [getEntry_updEntry_self, lookupA_delA_self]
    · rw [getEntry_updEntry_self,
        lookupA_delA_ne _ "no_resource" "start_failed" (by decide),
        reset_start_failures, getEntry_updEntry_self,
        lookupA_setA_ne _ "start_failures" "start_failed" _ (by decide)]
    · rw [getEntry_updEntry_self,
        lookupA_delA_ne _ "no_resource" k (Ne.symm hk1),
        reset_start_failures, getEntry_updEntry_self,
        lookupA_setA_ne _ "start_failures" k _ (Ne.symm hk2)]
    · rw [getEntry_updEntry_self,
        lookupA_delA_ne _ "no_resource" "resumed" (by decide),
        reset_start_failures, getEntry_updEntry_self,
        lookupA_setA_ne _ "start_failures" "resumed" _ (by decide)]
    · rw [lookupA_updEntry_ne _ _ _ _ (Ne.symm h2),
        reset_start_failures, lookupA_updEntry_ne _ _ _ _ (Ne.symm h2)]

/-- Witness for C8 (amended): a confirmed start on a concrete history drops
no_resource, keeps start_failed and overlimit, and keeps the other
target's entry. -/
theorem confirmed_start_frame_witness :
    lookupA (getEntry (check_and_act ⟨"i-1", none⟩
      ⟨.ok [], .ok (some "Stopped"), .ok (), .ok (),
        fun _ => .ok (some "Running"), 1000000⟩
      [("i-1", [("no_resource", 5), ("start_failed", 6), ("overlimit", 7)]),
       ("i-2", [("resumed", 8)])]).state "i-1") "no_resource" = none ∧
    lookupA (getEntry (check_and_act ⟨"i-1", none⟩
      ⟨.ok [], .ok (some "Stopped"), .ok (), .ok (),
        fun _ => .ok (some "Running"), 1000000⟩
      [("i-1", [("no_resource", 5), ("start_failed", 6), ("overlimit", 7)]),
       ("i-2", [("resumed", 8)])]).state "i-1") "start_failed" = some 6 ∧
    lookupA (getEntry (check_and_act ⟨"i-1", none⟩
      ⟨.ok [], .ok (some "Stopped"), .ok (), .ok (),
        fun _ => .ok (some "Running"), 1000000⟩
      [("i-1", [("no_resource", 5), ("start_failed", 6), ("overlimit", 7)]),
       ("i-2", [("resumed", 8)])]).state "i-1") "overlimit" = some 7 ∧
    lookupA (check_and_act ⟨"i-1", none⟩
      ⟨.ok [], .ok (some "Stopped"), .ok (), .ok (),
        fun _ => .ok (some "Running"), 1000000⟩
      [("i-1", [("no_resource", 5), ("start_failed", 6), ("overlimit", 7)]),
       ("i-2", [("resumed", 8)])]).state "i-2" = some [("resumed", 8)] := by
  have hge : ¬ MAX_START_FAILURES ≤ get_start_failures
      ([("i-1", [("no_resource", 5), ("start_failed", 6), ("overlimit", 7)]),
        ("i-2", [("resumed", 8)])] : MonState) "i-1" := by
    simp [get_start_failures, getEntry, getD, lookupA, MAX_START_FAILURES]
  have hp : pollLoop (fun _ => (.ok (some "Running") : StatusResult)) 0 0
      = .started 1 := by
    rw [pollLoop]
    norm_num [START_WAIT_TIMEOUT]
  have h := confirmed_start_frame ⟨"i-1", none⟩
    ⟨.ok [], .ok (some "Stopped"), .ok (), .ok (),
      fun _ => .ok (some "Running"), 1000000⟩
    [("i-1", [("no_resource", 5), ("start_failed", 6), ("overlimit", 7)]),
     ("i-2", [("resumed", 8)])] [] 1 rfl rfl (by norm_num) hge rfl hp
  refine ⟨h.1, ?_, ?_, ?_⟩
  · rw [h.2.1]
    simp [getEntry, lookupA]
  · rw [h.2.2.1 "overlimit" (by decide) (by decide) (by decide)]
    simp [getEntry, lookupA]
  · rw [h.2.2.2.2 "i-2" (by decide)]
    simp [lookupA]

/-- The stored overlimit last-notified timestamp of a target. -/
def olStamp (st : MonState) (id : String) : Option ℚ :=
  lookupA (getEntry st id) "overlimit"

/-- Total number of overlimit notifications across a list of cycles. -/
def overlimitCount (rs : List CycleResult) : Nat :=
  (rs.map (fun r => r.notifs.count "overlimit")).sum

/-- Marking any other event leaves the overlimit stamp alone. -/
theorem olStamp_mark_ne (st : MonState) (id k : String) (now : ℚ)
    (hk : k ≠ "overlimit") :
    olStamp (mark_notified st id k now) id = olStamp st id := by
  simp [olStamp, mark_notified, getEntry_updEntry_self,
    lookupA_setA_ne _ k _ _ hk]

/-- Marking overlimit stores the current time in the stamp. -/
theorem olStamp_mark_self (st : MonState) (id : String) (now : ℚ) :
    olStamp (mark_notified st id "overlimit" now) id = some now := by
  simp [olStamp, mark_notified, getEntry_updEntry_self, lookupA_setA_self]

/-- Setting the failure counter leaves the overlimit stamp alone. -/
theorem olStamp_set (st : MonState) (id : String) (c : ℚ) :
    olStamp (set_start_failures st id c) id = olStamp st id := by
  simp [olStamp, set_start_failures, getEntry_updEntry_self,
    lookupA_setA_ne _ "start_failures" "overlimit" _ (by decide)]

/-- Resetting the failure counter leaves the overlimit stamp alone. -/
theorem olStamp_reset (st : MonState) (id : String) :
    olStamp (reset_start_failures st id) id = olStamp st id := by
  simp [olStamp, reset_start_failures, getEntry_updEntry_self,
    lookupA_setA_ne _ "start_failures" "overlimit" _ (by decide)]

/-- Dropping the no_resource stamp leaves the overlimit stamp alone. -/
theorem olStamp_del (st : MonState) (id : String) :
    olStamp (updEntry st id (fun m => delA m "no_resource")) id
      = olStamp st id := by
  simp [olStamp, getEntry_updEntry_self,
    lookupA_delA_ne _ "no_resource" "overlimit" (by decide)]

/-- Every cycle either sends no overlimit notification and leaves the
overlimit stamp alone, or sends exactly the one overlimit notification,
stamps the current time, and could only do so because the 24-hour window
had elapsed over the stored stamp. -/
theorem cycle_overlimit_facts (user : User) (env : Env) (st : MonState) :
    ((check_and_act user env st).notifs.count "overlimit" = 0 ∧
      olStamp (check_and_act user env st).state user.instance_id
        = olStamp st user.instance_id) ∨
    ((check_and_act user env st).notifs = ["overlimit"] ∧
      olStamp (check_and_act user env st).state user.instance_id
        = some env.now ∧
      OVERLIMIT_COOLDOWN ≤
        env.now - getD (getEntry st user.instance_id) "overlimit" 0) := by
  cases htr : env.traffic with
  | error e =>
    rw [check_and_act_eq_traffic_err user env st e htr]
    exact Or.inl ⟨rfl, rfl⟩
  | ok d =>
    cases hst : env.status with
    | error e =>
      rw [check_and_act_eq_status_err user env st d e htr hst]
      exact Or.inl ⟨rfl, rfl⟩
    | ok os =>
      cases os with
      | none =>
        rw [check_and_act_eq_not_found user env st d htr hst]
        exact Or.inl ⟨rfl, rfl⟩
      | some s =>
        rw [check_and_act_ok user env st d s htr hst]
        by_cases hlt : d.sum / (1024 ^ 3 : ℚ) < user.traffic_limit.getD 180
        · rw [if_pos hlt]
          by_cases hsd : s = "Stopped"
          · subst hsd
            rw [safeBranch_eq_stopped]
            by_cases hge : MAX_START_FAILURES ≤
                get_start_failures st user.instance_id
            · rw [safeStopped_eq_gate user env st hge]
              split
              · refine Or.inl ⟨?_, olStamp_mark_ne st _ "no_resource" _
                  (by decide)⟩
                rfl
              · exact Or.inl ⟨rfl, rfl⟩
            · cases hsr : env.startRes with
              | error e2 =>
                rw [safeStopped_eq_start_err user env st e2 hge hsr]
                exact Or.inl ⟨rfl, rfl⟩
              | ok u =>
                cases u
                cases hp : pollLoop env.poll 0 0 with
                | errored n =>
                  rw [safeStopped_eq_poll_err user env st n hge hsr hp]
                  exact Or.inl ⟨rfl, rfl⟩
                | started n =>
                  rw [safeStopped_eq_started user env st n hge hsr hp]
                  split
                  · refine Or.inl ⟨?_, ?_⟩
                    · rfl
                    · rw [olStamp_mark_ne _ _ "resumed" _ (by decide),
                        olStamp_del, olStamp_reset]
                  · refine Or.inl ⟨rfl, ?_⟩
                    rw [olStamp_del, olStamp_reset]
                | timedOut n =>
                  rw [safeStopped_eq_timeout user env st n hge hsr hp]
                  split
                  · refine Or.inl ⟨?_, ?_⟩
                    · rfl
                    · rw [olStamp_mark_ne _ _ "start_failed" _ (by decide),
                        olStamp_set]
                  · exact Or.inl ⟨rfl, olStamp_set st user.instance_id _⟩
          · by_cases hrun : s = "Running"
            · subst hrun
              rw [safeBranch_eq_running]
              exact Or.inl ⟨rfl, olStamp_reset st user.instance_id⟩
            · rw [safeBranch_eq_other user env st s hsd hrun]
              exact Or.inl ⟨rfl, rfl⟩
        · rw [if_neg hlt]
          by_cases hrun : s = "Running"
          · subst hrun
            cases hstop : env.stopRes with
            | error e2 =>
              rw [overlimitBranch_eq_stop_err user env st e2 hstop]
              exact Or.inl ⟨rfl, rfl⟩
            | ok u =>
              cases u
              rw [overlimitBranch_eq_running user env st hstop]
              by_cases hcn : can_notify st user.instance_id "overlimit"
                  (some OVERLIMIT_COOLDOWN) env.now = true
              · rw [if_pos hcn]
                exact Or.inr ⟨rfl, olStamp_mark_self st user.instance_id _,
                  by simpa [can_notify] using hcn⟩
              · rw [if_neg hcn]
                exact Or.inl ⟨rfl, rfl⟩
          · rw [overlimitBranch_eq_not_running user env st s hrun]
            by_cases hcn : can_notify st user.instance_id "overlimit"
                (some OVERLIMIT_COOLDOWN) env.now = true
            · rw [if_pos hcn]
              exact Or.inr ⟨rfl, olStamp_mark_self st user.instance_id _,
                by simpa [can_notify] using hcn⟩
            · rw [if_neg hcn]
              exact Or.inl ⟨rfl, rfl⟩

/-- While the stored overlimit stamp is still within the window of every
upcoming cycle, no overlimit notification can fire at all. -/
theorem runCycles_no_overlimit (user : User) :
    ∀ (envs : List Env) (st : MonState) (t : ℚ),
    olStamp st user.instance_id = some t →
    (∀ e ∈ envs, e.now - t < OVERLIMIT_COOLDOWN) →
    overlimitCount (runCycles user envs st).2 = 0 := by
  intro envs
  induction envs with
  | nil =>
    intro st t hstamp hw
    simp [runCycles, overlimitCount]
  | cons e rest ih =>
    intro st t hstamp hw
    rcases cycle_overlimit_facts user e st with ⟨hc, hpres⟩ | ⟨_, _, hcond⟩
    · simp only [runCycles, overlimitCount, List.map_cons, List.sum_cons]
      rw [hc]
      have := ih (check_and_act user e st).state t (by rw [hpres]; exact hstamp)
        (fun e2 he2 => hw e2 (List.mem_cons_of_mem e he2))
      simpa [overlimitCount] using this
    · exfalso
      have hlt := hw e (List.mem_cons_self e rest)
      have hstamp2 : lookupA (getEntry st user.instance_id) "overlimit"
          = some t := hstamp
      rw [getD, hstamp2] at hcond
      simp at hcond
      linarith

/-- C6: both overlimit sub-cases share the single event key overlimit with
the 24-hour cooldown, so over any sequence of cycles whose clocks all lie
inside one 24-hour window, at most one overlimit notification is sent for
the target, regardless of which sub-case triggered it. -/
theorem overlimit_dedup (user : User) (envs : List Env) (st : MonState)
    (T : ℚ) (env : Env) (d : List ℚ) (s : String) :
    ((∀ e ∈ envs, T ≤ e.now ∧ e.now < T + OVERLIMIT_COOLDOWN) →
      overlimitCount (runCycles user envs st).2 ≤ 1) ∧
    (env.traffic = .ok d → env.status = .ok (some s) →
      ¬ d.sum / (1024 ^ 3 : ℚ) < user.traffic_limit.getD 180 →
      (check_and_act user env st).notifs = ["overlimit"] ∨
      (check_and_act user env st).notifs = []) := by
  constructor
  · induction envs generalizing st with
    | nil =>
      intro hw
      simp [runCycles, overlimitCount]
    | cons e rest ih =>
      intro hw
      rcases cycle_overlimit_facts user e st with ⟨hc, _⟩ | ⟨hn, hstamp, _⟩
      · simp only [runCycles, overlimitCount, List.map_cons, List.sum_cons]
        rw [hc]
        have := ih (check_and_act user e st).state
          (fun e2 he2 => hw e2 (List.mem_cons_of_mem e he2))
        simpa [overlimitCount] using this
      · simp only [runCycles, overlimitCount, List.map_cons, List.sum_cons]
        rw [hn]
        have hzero := runCycles_no_overlimit user rest
          (check_and_act user e st).state e.now hstamp
          (fun e2 he2 => by
            have h2 := hw e2 (List.mem_cons_of_mem e he2)
            have h1 := hw e (List.mem_cons_self e rest)
            linarith)
        simp only [overlimitCount] at hzero
        rw [hzero]
        simp
  · intro ht hs hge
    rw [check_and_act_ok user env st d s ht hs, if_neg hge]
    by_cases hrun : s = "Running"
    · subst hrun
      cases hstop : env.stopRes with
      | error e2 =>
        rw [overlimitBranch_eq_stop_err user env st e2 hstop]
        exact Or.inr rfl
      | ok u =>
        cases u
        rw [overlimitBranch_eq_running user env st hstop]
        split
        · exact Or.inl rfl
        · exact Or.inr rfl
    · rw [overlimitBranch_eq_not_running user env st s hrun]
      split
      · exact Or.inl rfl
      · exact Or.inr rfl

/-- Witness for C6: two overlimit cycles one second apart notify exactly
once in total, and the running sub-case emits the shared overlimit key. -/
theorem overlimit_dedup_witness :
    overlimitCount (runCycles ⟨"i-1", none⟩
      [⟨.ok [200 * 1024 ^ 3], .ok (some "Running"), .ok (), .ok (),
        fun _ => .ok none, 100000⟩,
       ⟨.ok [200 * 1024 ^ 3], .ok (some "Stopped"), .ok (), .ok (),
        fun _ => .ok none, 100001⟩] []).2 ≤ 1 ∧
    ((check_and_act ⟨"i-1", none⟩
      ⟨.ok [200 * 1024 ^ 3], .ok (some "Running"), .ok (), .ok (),
        fun _ => .ok none, 100000⟩ []).notifs = ["overlimit"] ∨
     (check_and_act ⟨"i-1", none⟩
      ⟨.ok [200 * 1024 ^ 3], .ok (some "Running"), .ok (), .ok (),
        fun _ => .ok none, 100000⟩ []).notifs = []) := by
  have h := overlimit_dedup ⟨"i-1", none⟩
    [⟨.ok [200 * 1024 ^ 3], .ok (some "Running"), .ok (), .ok (),
      fun _ => .ok none, 100000⟩,
     ⟨.ok [200 * 1024 ^ 3], .ok (some "Stopped"), .ok (), .ok (),
      fun _ => .ok none, 100001⟩] [] 100000
    ⟨.ok [200 * 1024 ^ 3], .ok (some "Running"), .ok (), .ok (),
      fun _ => .ok none, 100000⟩ [200 * 1024 ^ 3] "Running"
  refine ⟨h.1 ?_, h.2 rfl rfl (by norm_num)⟩
  intro e he
  simp only [List.mem_cons, List.not_mem_nil, or_false] at he
  rcases he with he | he <;> rw [he] <;> constructor <;>
    norm_num [OVERLIMIT_COOLDOWN]

/-! ### End of claims -/

/-- C5: the start-confirmation sub-loop performs at most
ceil(120/10) = 12 status polls (each iteration sleeps the 10-second
interval before polling) before declaring timeout, the whole cycle never
records more than 12 polls, and as soon as a poll observes Running the loop
stops right there with no further poll. -/
theorem start_poll_bound (poll : Nat → StatusResult) (user : User)
    (env : Env) (st : MonState) (k : Nat) :
    (pollLoop poll 0 0).queries ≤ 12 ∧
    (check_and_act user env st).nPolls ≤ 12 ∧
    (k < 12 → (∀ j, j < k → ∃ s, poll j = .ok s ∧ s ≠ some "Running") →
      poll k = .ok (some "Running") → pollLoop poll 0 0 = .started (k + 1)) := by
  refine ⟨?_, check_and_act_nPolls_le user env st, fun hk hnr hr => ?_⟩
  · have h := pollLoop_queries_le poll 12 0 0
      (by simp only [START_WAIT_TIMEOUT, START_POLL_INTERVAL]; omega)
    simpa using h
  · have h := pollLoop_first_running poll k 0 0
      (by simp only [START_WAIT_TIMEOUT, START_POLL_INTERVAL]; omega)
      (fun j hj => by simpa using hnr j hj)
      (by simpa using hr)
    simpa using h

/-- Witness for C5: a poll sequence whose third answer is Running stops
after exactly 3 polls, within the 12-poll bound. -/
theorem start_poll_bound_witness :
    (pollLoop (fun i => if i = 2 then .ok (some "Running")
      else .ok (some "Starting")) 0 0).queries ≤ 12 ∧
    pollLoop (fun i => if i = 2 then .ok (some "Running")
      else .ok (some "Starting")) 0 0 = .started 3 := by
  have h := start_poll_bound
    (fun i => if i = 2 then .ok (some "Running") else .ok (some "Starting"))
    ⟨"i-1", none⟩
    ⟨.ok [], .ok (some "Running"), .ok (), .ok (), fun _ => .ok none, 0⟩
    [] 2
  refine ⟨h.1, h.2.2 (by omega) (fun j hj => ?_) (by simp)⟩
  exact ⟨some "Starting", by simp [show j ≠ 2 from by omega], by simp⟩

/-- C1: for every target and every traffic observation the decision cycle
partitions exhaustively and deterministically on the quota comparison:
traffic strictly below the quota takes the safe branch, traffic at or above
the quota takes the overlimit branch, and traffic exactly equal to the quota
is treated as overlimit. -/
theorem quota_partition (user : User) (env : Env) (st : MonState)
    (d : List ℚ) (s : String) (ht : env.traffic = .ok d)
    (hs : env.status = .ok (some s)) :
    ((check_and_act user env st).branch = some Branch.safe ↔
      d.sum / (1024 ^ 3 : ℚ) < user.traffic_limit.getD 180) ∧
    ((check_and_act user env st).branch = some Branch.overlimit ↔
      ¬ d.sum / (1024 ^ 3 : ℚ) < user.traffic_limit.getD 180) ∧
    (d.sum / (1024 ^ 3 : ℚ) = user.traffic_limit.getD 180 →
      (check_and_act user env st).branch = some Branch.overlimit) := by
  obtain ⟨h1, h2⟩ := branch_iff user env st d s ht hs
  refine ⟨h1, h2, fun he => h2.mpr ?_⟩
  rw [he]
  exact lt_irrefl _

/-- Witness for C1: traffic exactly equal to a 2 GB quota lands in the
overlimit branch. -/
theorem quota_partition_witness :
    (check_and_act ⟨"i-1", some 2⟩
      ⟨.ok [2 * 1024 ^ 3], .ok (some "Running"), .ok (), .ok (),
        fun _ => .ok none, 0⟩ []).branch = some Branch.overlimit := by
  refine (quota_partition ⟨"i-1", some 2⟩
    ⟨.ok [2 * 1024 ^ 3], .ok (some "Running"), .ok (), .ok (),
      fun _ => .ok none, 0⟩ [] [2 * 1024 ^ 3] "Running" rfl rfl).2.2 ?_
  norm_num

/-- C10: a target whose configuration omits traffic_limit behaves exactly
as if the quota were 180 GB: the cycle result is identical to one with an
explicit quota of 180, traffic strictly below 180 GB takes the safe branch
and traffic at or above 180 GB takes the overlimit branch. -/
theorem default_quota (id : String) (env : Env) (st : MonState)
    (d : List ℚ) (s : String) (ht : env.traffic = .ok d)
    (hs : env.status = .ok (some s)) :
    check_and_act ⟨id, none⟩ env st = check_and_act ⟨id, some 180⟩ env st ∧
    ((check_and_act ⟨id, none⟩ env st).branch = some Branch.safe ↔
      d.sum / (1024 ^ 3 : ℚ) < 180) ∧
    ((check_and_act ⟨id, none⟩ env st).branch = some Branch.overlimit ↔
      ¬ d.sum / (1024 ^ 3 : ℚ) < 180) := by
  obtain ⟨h1, h2⟩ := branch_iff ⟨id, none⟩ env st d s ht hs
  exact ⟨rfl, h1, h2⟩

/-- Witness for C10: with traffic_limit omitted, 179 GB of traffic takes
the safe branch and the cycle equals the explicit-180 cycle. -/
theorem default_quota_witness :
    check_and_act ⟨"i-1", none⟩
        ⟨.ok [179 * 1024 ^ 3], .ok (some "Running"), .ok (), .ok (),
          fun _ => .ok none, 0⟩ [] =
      check_and_act ⟨"i-1", some 180⟩
        ⟨.ok [179 * 1024 ^ 3], .ok (some "Running"), .ok (), .ok (),
          fun _ => .ok none, 0⟩ [] ∧
    (check_and_act ⟨"i-1", none⟩
        ⟨.ok [179 * 1024 ^ 3], .ok (some "Running"), .ok (), .ok (),
          fun _ => .ok none, 0⟩ []).branch = some Branch.safe := by
  obtain ⟨h1, h2, _⟩ := default_quota "i-1"
    ⟨.ok [179 * 1024 ^ 3], .ok (some "Running"), .ok (), .ok (),
      fun _ => .ok none, 0⟩ [] [179 * 1024 ^ 3] "Running" rfl rfl
  exact ⟨h1, h2.mpr (by norm_num)⟩

/-- Counterexample to C4 as stated: with no prior timestamp stored, the
cooldown check still returns false when the clock has not yet reached the
window, because an absent timestamp is read as 0. -/
theorem cooldown_absent_counterexample :
    lookupA (getEntry ([] : MonState) "i-1") "overlimit" = none ∧
    can_notify [] "i-1" "overlimit" (some OVERLIMIT_COOLDOWN) 0 = false := by
  constructor
  · rfl
  · simp [can_notify, getEntry, getD, lookupA, OVERLIMIT_COOLDOWN]

/-- C4 (amended): the cooldown check treats an absent timestamp as 0, so it
returns true when no prior timestamp is stored provided the clock is at
least the window; it returns false immediately after mark_notified records
the current time, for any positive window; and it returns true again once
the clock is at least the window past the recorded timestamp. -/
theorem cooldown_spec (st : MonState) (id k : String) (c : Option ℚ)
    (now now2 w t : ℚ) :
    (lookupA (getEntry st id) k = none → c.getD NOTIFY_COOLDOWN ≤ now →
      can_notify st id k c now = true) ∧
    (0 < w → can_notify (mark_notified st id k now) id k (some w) now
      = false) ∧
    (lookupA (getEntry st id) k = some t → w ≤ now2 - t →
      can_notify st id k (some w) now2 = true) := by
  refine ⟨fun habs hle => ?_, fun hw => ?_, fun hst hle => ?_⟩
  · simp [can_notify, getD, habs]
    linarith
  · simp [can_notify, getD, mark_notified, getEntry_updEntry_self,
      lookupA_setA_self]
    linarith
  · simp [can_notify, getD, hst]
    linarith

/-- Witness for C4 (amended): the three cooldown behaviours at concrete
inputs. -/
theorem cooldown_spec_witness :
    can_notify [] "i-1" "resumed" none 3600 = true ∧
    can_notify (mark_notified [] "i-1" "resumed" 5000) "i-1" "resumed"
      (some 10) 5000 = false ∧
    can_notify [("i-1", [("resumed", 100)])] "i-1" "resumed" (some 50) 200
      = true := by
  refine ⟨(cooldown_spec [] "i-1" "resumed" none 3600 0 0 0).1 rfl
      (by norm_num [NOTIFY_COOLDOWN]),
    (cooldown_spec [] "i-1" "resumed" none 5000 0 10 0).2.1 (by norm_num),
    (cooldown_spec [("i-1", [("resumed", 100)])] "i-1" "resumed" none 0 200
      50 100).2.2 ?_ (by norm_num)⟩
  simp [getEntry, lookupA]

end Monitor
